import Mathlib

/-!
# Verification of the Adaptive-Learning-Assessment core

Shallow embedding of the repository's core modules:

* `src/tracker.py` — `PerformanceTracker`: attempt history, rolling
  statistics (`get_recent_performance`), and the session summary
  (`get_summary`).
* `src/adaptive_engine.py` — `AdaptiveEngine`: the next-difficulty
  decision (`predict_next_difficulty`) with its rule-based cold-start
  fallback (`_rule_based_fallback`).  The fitted scikit-learn classifier
  is an opaque floating-point artifact; its two outputs (the predicted
  class and the winning probability) enter the embedding as explicit
  parameters, while the class-to-difficulty mapping and the engine's
  bookkeeping are translated from the source.
* `src/puzzle_generator.py` — `PuzzleGenerator`: tiered arithmetic
  puzzle generation.  `random.randint`/`random.choice` are modelled by
  mapping an arbitrary natural-number draw into the requested range, so
  quantifying over draws covers every reachable outcome.

Python numbers are modelled by `ℚ` (times, answers, scores) and `ℤ`/`ℕ`
(difficulties, counters); Python's fallible paths return `Except`.
-/

/-- One entry of `PerformanceTracker.history` (tracker.py, lines 21–28). -/
structure AttemptRecord where
  puzzle : String
  user_answer : ℚ
  correct_answer : ℚ
  correct : Bool
  time : ℚ
  difficulty : ℤ
deriving DecidableEq

/-- The dict returned by `get_recent_performance` (tracker.py, lines 148–155). -/
structure RecentStats where
  accuracy : ℚ
  avg_time : ℚ
  correct_streak : ℕ
  incorrect_streak : ℕ
  recent_problems : ℕ
  trend : ℤ
deriving DecidableEq

/-- The mutable fields of `PerformanceTracker` (tracker.py, lines 4–7). -/
structure TrackerState where
  history : List AttemptRecord
  difficulty_changes : ℕ
  last_difficulty : Option ℤ
deriving DecidableEq

/-- `PerformanceTracker.__init__` (tracker.py, lines 4–7). -/
def TrackerState.init : TrackerState := ⟨[], 0, none⟩

/-- `record_performance` (tracker.py, lines 9–35): append the record and
bump the difficulty-change counter when the difficulty differs from the
previous record's. -/
def record_performance (st : TrackerState) (puzzle : String)
    (user_answer correct_answer : ℚ) (is_correct : Bool)
    (time_taken : ℚ) (difficulty : ℤ) : TrackerState :=
  let record : AttemptRecord :=
    ⟨puzzle, user_answer, correct_answer, is_correct, time_taken, difficulty⟩
  let difficulty_changes :=
    match st.last_difficulty with
    | some d => if d ≠ difficulty then st.difficulty_changes + 1 else st.difficulty_changes
    | none => st.difficulty_changes
  ⟨st.history ++ [record], difficulty_changes, some difficulty⟩

/-- Python's `l[-n:]` slice for `n` the window size: the whole list when
`n = 0`, otherwise the last `n` elements. -/
def pyLastSlice (l : List AttemptRecord) (n : ℕ) : List AttemptRecord :=
  if n = 0 then l else l.drop (l.length - n)

/-- `recent = self.history[-n:] if len(self.history) >= n else self.history`
(tracker.py, line 114). -/
def recentWindow (history : List AttemptRecord) (n : ℕ) : List AttemptRecord :=
  if history.length ≥ n then pyLastSlice history n else history

/-- The streak loop of `get_recent_performance` (tracker.py, lines 123–134):
iterate over the window from the most recent record backwards (the input
list here is already reversed), incrementing the counter of the record's
outcome and stopping right after the first record whose outcome differs
from the ones counted so far. -/
def streakLoop : List AttemptRecord → ℕ → ℕ → ℕ × ℕ
  | [], cs, is => (cs, is)
  | r :: rest, cs, is =>
    if r.correct then
      if is > 0 then (cs + 1, is) else streakLoop rest (cs + 1) is
    else
      if cs > 0 then (cs, is + 1) else streakLoop rest cs (is + 1)

/-- `get_recent_performance` (tracker.py, lines 94–155). -/
def get_recent_performance (history : List AttemptRecord) (n : ℕ) : RecentStats :=
  if history = [] then
    { accuracy := 0, avg_time := 0, correct_streak := 0,
      incorrect_streak := 0, recent_problems := 0, trend := 0 }
  else
    let recent := recentWindow history n
    let correct_count := recent.countP (fun r => r.correct)
    let total_count := recent.length
    let accuracy : ℚ :=
      if total_count > 0 then ((correct_count : ℚ) / total_count) * 100 else 0
    let avg_time : ℚ :=
      if total_count > 0 then (recent.map (fun r => r.time)).sum / total_count else 0
    let streaks := streakLoop recent.reverse 0 0
    let trend : ℤ :=
      if recent.length ≥ 4 then
        let mid := recent.length / 2
        let first_half_acc : ℚ :=
          ((recent.take mid).countP (fun r => r.correct) : ℚ) / (mid : ℚ)
        let second_half_acc : ℚ :=
          ((recent.drop mid).countP (fun r => r.correct) : ℚ) / ((recent.length - mid : ℕ) : ℚ)
        if second_half_acc > first_half_acc + 0.2 then 1
        else if second_half_acc < first_half_acc - 0.2 then -1
        else 0
      else 0
    { accuracy := accuracy, avg_time := avg_time,
      correct_streak := streaks.1, incorrect_streak := streaks.2,
      recent_problems := total_count, trend := trend }

/-- C7: with an empty history, `get_recent_performance` does not fail and
returns exactly the neutral defaults: accuracy 0, avg_time 0,
correct_streak 0, incorrect_streak 0, recent_problems 0, trend 0
(tracker.py, lines 104–112). -/
theorem C7_empty_history_neutral_defaults (n : ℕ) :
    get_recent_performance [] n =
      { accuracy := 0, avg_time := 0, correct_streak := 0,
        incorrect_streak := 0, recent_problems := 0, trend := 0 } := rfl

/-- The `model_info` block of the summary (tracker.py, lines 259–263). -/
structure ModelInfo where
  type : String
  predictions_made : ℤ
  last_confidence : ℚ
deriving DecidableEq

/-- The `{1: _, 2: _, 3: _}` count dict of
`get_difficulty_distribution` (tracker.py, lines 157–168). -/
structure DiffCount where
  d1 : ℕ
  d2 : ℕ
  d3 : ℕ
deriving DecidableEq

/-- The per-difficulty `{'correct': _, 'total': _}` dict of
`get_performance_by_difficulty` (tracker.py, lines 170–190). -/
structure DiffPerf where
  correct1 : ℕ
  total1 : ℕ
  correct2 : ℕ
  total2 : ℕ
  correct3 : ℕ
  total3 : ℕ
deriving DecidableEq

/-- The dict returned by `get_summary` (tracker.py, lines 248–264). -/
structure SessionSummary where
  total_problems : ℕ
  correct : ℕ
  incorrect : ℕ
  accuracy : ℚ
  avg_time : ℚ
  difficulty_distribution : DiffCount
  difficulty_changes : ℕ
  final_difficulty : ℤ
  recommended_difficulty : ℤ
  performance_by_difficulty : DiffPerf
  model_info : ModelInfo
deriving DecidableEq

/-- `get_difficulty_distribution` (tracker.py, lines 157–168). -/
def get_difficulty_distribution (history : List AttemptRecord) : DiffCount :=
  ⟨history.countP (fun r => r.difficulty == 1),
   history.countP (fun r => r.difficulty == 2),
   history.countP (fun r => r.difficulty == 3)⟩

/-- `get_performance_by_difficulty` (tracker.py, lines 170–190). -/
def get_performance_by_difficulty (history : List AttemptRecord) : DiffPerf :=
  ⟨history.countP (fun r => r.difficulty == 1 && r.correct),
   history.countP (fun r => r.difficulty == 1),
   history.countP (fun r => r.difficulty == 2 && r.correct),
   history.countP (fun r => r.difficulty == 2),
   history.countP (fun r => r.difficulty == 3 && r.correct),
   history.countP (fun r => r.difficulty == 3)⟩

/-- `get_summary` (tracker.py, lines 192–264). -/
def get_summary (st : TrackerState) : SessionSummary :=
  if hne : st.history = [] then
    { total_problems := 0, correct := 0, incorrect := 0,
      accuracy := 0, avg_time := 0,
      difficulty_distribution := ⟨0, 0, 0⟩,
      difficulty_changes := 0,
      final_difficulty := 1, recommended_difficulty := 1,
      performance_by_difficulty := ⟨0, 0, 0, 0, 0, 0⟩,
      model_info := ⟨"Logistic Regression", 0, 0⟩ }
  else
    let total_problems := st.history.length
    let correct := st.history.countP (fun r => r.correct)
    let incorrect := total_problems - correct
    let accuracy : ℚ := ((correct : ℚ) / (total_problems : ℚ)) * 100
    let avg_time : ℚ := (st.history.map (fun r => r.time)).sum / (total_problems : ℚ)
    let final_difficulty := (st.history.getLast hne).difficulty
    let recent_perf := get_recent_performance st.history 3
    let recommended : ℤ :=
      if recent_perf.accuracy ≥ 80 ∧ final_difficulty < 3 then final_difficulty + 1
      else if recent_perf.accuracy < 50 ∧ final_difficulty > 1 then final_difficulty - 1
      else final_difficulty
    { total_problems := total_problems, correct := correct, incorrect := incorrect,
      accuracy := accuracy, avg_time := avg_time,
      difficulty_distribution := get_difficulty_distribution st.history,
      difficulty_changes := st.difficulty_changes,
      final_difficulty := final_difficulty,
      recommended_difficulty := recommended,
      performance_by_difficulty := get_performance_by_difficulty st.history,
      model_info := ⟨"Logistic Regression", (total_problems : ℤ) - 1,
                     recent_perf.accuracy / 100⟩ }

/-- The engine's prediction bookkeeping (adaptive_engine.py, lines 38–40):
`prediction_count` and `last_confidence`, updated only by the classifier
path of `predict_next_difficulty`. -/
structure EngineState where
  prediction_count : ℕ
  last_confidence : ℚ
deriving DecidableEq

/-- `_rule_based_fallback` (adaptive_engine.py, lines 204–226). -/
def rule_based_fallback (performance_metrics : RecentStats)
    (current_difficulty : ℤ) : ℤ :=
  let accuracy := performance_metrics.accuracy
  let avg_time := performance_metrics.avg_time
  let performance_score : ℚ := accuracy * 0.7 + max 0 (30 - avg_time) * 0.3
  if performance_score > 75 ∧ current_difficulty < 3 then current_difficulty + 1
  else if performance_score < 40 ∧ current_difficulty > 1 then current_difficulty - 1
  else current_difficulty

/-- `predict_next_difficulty` (adaptive_engine.py, lines 161–202).
`prediction` is the class returned by `self.model.predict` (0 decrease,
1 stay, 2 increase) and `confidence` the winning probability from
`self.model.predict_proba`; both come from the fitted scikit-learn
classifier, which this embedding treats as an opaque oracle.  The
cold-start guard, the class-to-difficulty mapping with its clamping, and
the updates of `prediction_count` / `last_confidence` are translated
from the source. -/
def predict_next_difficulty (prediction : ℕ) (confidence : ℚ)
    (performance_metrics : RecentStats) (current_difficulty : ℤ)
    (st : EngineState) : ℤ × EngineState :=
  if performance_metrics.recent_problems < 2 then
    (rule_based_fallback performance_metrics current_difficulty, st)
  else
    let st' : EngineState := ⟨st.prediction_count + 1, confidence⟩
    let next_difficulty : ℤ :=
      if prediction = 2 then min (current_difficulty + 1) 3
      else if prediction = 0 then max (current_difficulty - 1) 1
      else current_difficulty
    (next_difficulty, st')

/-- `random.randint(a, b)` (inclusive bounds): an arbitrary draw `s` is
mapped into `[a, b]`; every value of the range is reached as `s` varies. -/
def randint (a b s : ℕ) : ℕ := a + s % (b + 1 - a)

/-- `random.choice(l)`: an arbitrary draw `s` selects an element of `l`. -/
def pyChoice (l : List String) (s : ℕ) : String := l.getD (s % l.length) ""

/-- The dict returned by `generate_puzzle` (puzzle_generator.py,
lines 44–50, 76–82, 114–120). -/
structure Puzzle where
  num1 : ℕ
  num2 : ℕ
  operation : String
  answer : ℚ
  difficulty : ℕ
deriving DecidableEq

/-- `_calculate` (puzzle_generator.py, lines 122–133); the unknown-operation
branch raises `ValueError`, modelled by the `Except` error channel. -/
def pyCalculate (num1 num2 : ℕ) (operation : String) : Except String ℚ :=
  if operation = "+" then .ok ((num1 : ℚ) + (num2 : ℚ))
  else if operation = "-" then .ok ((num1 : ℚ) - (num2 : ℚ))
  else if operation = "*" then .ok ((num1 : ℚ) * (num2 : ℚ))
  else if operation = "/" then .ok ((num1 : ℚ) / (num2 : ℚ))
  else .error ("Unknown operation: " ++ operation)

/-- `_generate_easy` (puzzle_generator.py, lines 27–50); `sOp`, `sA`, `sB`
are the draws consumed by `random.choice` and the two `random.randint`. -/
def generate_easy (sOp sA sB : ℕ) : Except String Puzzle := do
  let operation := pyChoice ["+", "-"] sOp
  let n1 := randint 1 10 sA
  let n2 := randint 1 10 sB
  let p : ℕ × ℕ := if operation = "-" ∧ n2 > n1 then (n2, n1) else (n1, n2)
  let answer ← pyCalculate p.1 p.2 operation
  pure { num1 := p.1, num2 := p.2, operation := operation,
         answer := answer, difficulty := 1 }

/-- `_generate_medium` (puzzle_generator.py, lines 52–82). -/
def generate_medium (sOp sA sB : ℕ) : Except String Puzzle := do
  let operation := pyChoice ["+", "-", "*"] sOp
  let p : ℕ × ℕ :=
    if operation = "*" then (randint 2 12 sA, randint 2 12 sB)
    else
      let n1 := randint 10 20 sA
      let n2 := randint 1 10 sB
      if operation = "-" ∧ n2 > n1 then (n2, n1) else (n1, n2)
  let answer ← pyCalculate p.1 p.2 operation
  pure { num1 := p.1, num2 := p.2, operation := operation,
         answer := answer, difficulty := 2 }

/-- `_generate_hard` (puzzle_generator.py, lines 84–120).  For `"/"` the
source draws the divisor (`num2`) first and the quotient second, then sets
`num1 = num2 * quotient`. -/
def generate_hard (sOp sA sB : ℕ) : Except String Puzzle := do
  let operation := pyChoice ["+", "-", "*", "/"] sOp
  let p : ℕ × ℕ :=
    if operation = "*" then (randint 5 15 sA, randint 5 15 sB)
    else if operation = "/" then
      let n2 := randint 2 12 sA
      let quotient := randint 5 15 sB
      (n2 * quotient, n2)
    else if operation = "-" then
      let n1 := randint 20 50 sA
      let n2 := randint 5 20 sB
      if n2 > n1 then (n2, n1) else (n1, n2)
    else
      (randint 20 50 sA, randint 10 30 sB)
  let answer ← pyCalculate p.1 p.2 operation
  pure { num1 := p.1, num2 := p.2, operation := operation,
         answer := answer, difficulty := 3 }

/-- `generate_puzzle` (puzzle_generator.py, lines 10–25): difficulty 1 is
easy, 2 is medium, and every other value falls into the `else` branch,
i.e. the hard generator. -/
def generate_puzzle (difficulty : ℤ) (sOp sA sB : ℕ) : Except String Puzzle :=
  if difficulty = 1 then generate_easy sOp sA sB
  else if difficulty = 2 then generate_medium sOp sA sB
  else generate_hard sOp sA sB

/-- C2: whenever the window reports fewer than 2 recent problems,
`predict_next_difficulty` returns exactly the rule-based fallback result
— with `score = accuracy*0.7 + max(0, 30 - avg_time)*0.3`, it returns
`current+1` if `score > 75` and `current < 3`, `current-1` if
`score < 40` and `current > 1`, and `current` otherwise — for every
classifier output (`prediction`, `confidence`) and every engine state,
which it leaves untouched: the cold-start path reads and writes no
fitted-classifier state (adaptive_engine.py, lines 172–174 and 204–226). -/
theorem C2_coldstart_is_rule_based_fallback (prediction : ℕ) (confidence : ℚ)
    (m : RecentStats) (current : ℤ) (st : EngineState)
    (hm : m.recent_problems < 2)
    (hc : current = 1 ∨ current = 2 ∨ current = 3) :
    (predict_next_difficulty prediction confidence m current st).1 =
      (if m.accuracy * 0.7 + max 0 (30 - m.avg_time) * 0.3 > 75 ∧ current < 3 then
        current + 1
      else if m.accuracy * 0.7 + max 0 (30 - m.avg_time) * 0.3 < 40 ∧ current > 1 then
        current - 1
      else current) ∧
    (predict_next_difficulty prediction confidence m current st).2 = st := by
  unfold predict_next_difficulty rule_based_fallback
  rw [if_pos hm]
  exact ⟨rfl, rfl⟩

/-- Witness for C2 at a concrete cold-start input: one recent problem,
accuracy 90, average time 3 seconds, current difficulty 1; the score is
`90*0.7 + 27*0.3 = 71.1`, so the fallback keeps difficulty 1. -/
theorem C2_coldstart_is_rule_based_fallback_witness :
    (predict_next_difficulty 2 1 ⟨90, 3, 1, 0, 1, 0⟩ 1 ⟨5, 1/2⟩).1 =
      (if (90 : ℚ) * 0.7 + max 0 (30 - 3) * 0.3 > 75 ∧ (1 : ℤ) < 3 then 2
      else if (90 : ℚ) * 0.7 + max 0 (30 - 3) * 0.3 < 40 ∧ (1 : ℤ) > 1 then 0
      else 1) ∧
    (predict_next_difficulty 2 1 ⟨90, 3, 1, 0, 1, 0⟩ 1 ⟨5, 1/2⟩).2 = ⟨5, 1/2⟩ := by
  have h := C2_coldstart_is_rule_based_fallback 2 1 ⟨90, 3, 1, 0, 1, 0⟩ 1 ⟨5, 1/2⟩
    (by decide) (Or.inl rfl)
  exact ⟨h.1.trans (by norm_num), h.2⟩

/-- C4: for every stats input, every classifier output and every current
difficulty in {1,2,3}, the difficulty returned by
`predict_next_difficulty` — through the classifier path's clamped
mapping or the cold-start fallback's guarded steps — stays in {1,2,3}
and differs from the current difficulty by at most one
(adaptive_engine.py, lines 190–197 and 219–226). -/
theorem C4_difficulty_range_and_single_step (prediction : ℕ) (confidence : ℚ)
    (m : RecentStats) (current : ℤ) (st : EngineState)
    (hc : current = 1 ∨ current = 2 ∨ current = 3) :
    ((predict_next_difficulty prediction confidence m current st).1 = 1 ∨
     (predict_next_difficulty prediction confidence m current st).1 = 2 ∨
     (predict_next_difficulty prediction confidence m current st).1 = 3) ∧
    |(predict_next_difficulty prediction confidence m current st).1 - current| ≤ 1 := by
  rcases hc with rfl | rfl | rfl <;>
    simp only [predict_next_difficulty, rule_based_fallback] <;>
    split_ifs <;> simp_all

/-- Witness for C4 on the classifier path: three recent problems, a
classifier vote to increase, current difficulty 2. -/
theorem C4_difficulty_range_and_single_step_witness :
    ((predict_next_difficulty 2 (9/10) ⟨100, 2, 3, 0, 3, 1⟩ 2 ⟨0, 0⟩).1 = 1 ∨
     (predict_next_difficulty 2 (9/10) ⟨100, 2, 3, 0, 3, 1⟩ 2 ⟨0, 0⟩).1 = 2 ∨
     (predict_next_difficulty 2 (9/10) ⟨100, 2, 3, 0, 3, 1⟩ 2 ⟨0, 0⟩).1 = 3) ∧
    |(predict_next_difficulty 2 (9/10) ⟨100, 2, 3, 0, 3, 1⟩ 2 ⟨0, 0⟩).1 - 2| ≤ 1 :=
  C4_difficulty_range_and_single_step 2 (9/10) ⟨100, 2, 3, 0, 3, 1⟩ 2 ⟨0, 0⟩
    (Or.inr (Or.inl rfl))

/-- C10: for every non-empty history, the `model_info` block of
`get_summary` is computed purely from the tracker's own data —
`get_summary` is a function of the `TrackerState` alone and never reads
the engine — with `predictions_made = total_problems - 1` and
`last_confidence` the accuracy of the last-3 window divided by 100;
meanwhile the engine's own `prediction_count`/`last_confidence` are left
unchanged by the cold-start path of `predict_next_difficulty`, i.e. only
its classifier path updates them (tracker.py, lines 255–264;
adaptive_engine.py, lines 172–174 and 186–188). -/
theorem C10_model_info_from_tracker_only (st : TrackerState)
    (hne : st.history ≠ []) :
    (get_summary st).model_info.type = "Logistic Regression" ∧
    (get_summary st).model_info.predictions_made = (st.history.length : ℤ) - 1 ∧
    (get_summary st).model_info.last_confidence =
      (get_recent_performance st.history 3).accuracy / 100 ∧
    (∀ (prediction : ℕ) (confidence : ℚ) (m : RecentStats) (current : ℤ)
        (est : EngineState), m.recent_problems < 2 →
      (predict_next_difficulty prediction confidence m current est).2 = est) := by
  refine ⟨?_, ?_, ?_, ?_⟩
  · simp [get_summary, hne]
  · simp [get_summary, hne]
  · simp [get_summary, hne]
  · intro prediction confidence m current est hm
    simp [predict_next_difficulty, hm]

/-- Witness for C10 at a one-record history (a correct answer at
difficulty 1, taking 2 seconds). -/
theorem C10_model_info_from_tracker_only_witness :
    (get_summary ⟨[⟨"1 + 1", 2, 2, true, 2, 1⟩], 0, some 1⟩).model_info.type =
      "Logistic Regression" ∧
    (get_summary ⟨[⟨"1 + 1", 2, 2, true, 2, 1⟩], 0, some 1⟩).model_info.predictions_made =
      (([⟨"1 + 1", 2, 2, true, 2, 1⟩] : List AttemptRecord).length : ℤ) - 1 ∧
    (get_summary ⟨[⟨"1 + 1", 2, 2, true, 2, 1⟩], 0, some 1⟩).model_info.last_confidence =
      (get_recent_performance [⟨"1 + 1", 2, 2, true, 2, 1⟩] 3).accuracy / 100 ∧
    (∀ (prediction : ℕ) (confidence : ℚ) (m : RecentStats) (current : ℤ)
        (est : EngineState), m.recent_problems < 2 →
      (predict_next_difficulty prediction confidence m current est).2 = est) :=
  C10_model_info_from_tracker_only ⟨[⟨"1 + 1", 2, 2, true, 2, 1⟩], 0, some 1⟩
    (by decide)

/-- C3 counterexample: `generate_puzzle` called with the out-of-range
difficulty 5 (draws all 0) raises no `InvalidDifficulty` error — no such
error exists in puzzle_generator.py — and instead returns a Hard-tier
puzzle, `20 + 10 = 30` at difficulty 3 (puzzle_generator.py,
lines 20–25). -/
theorem C3_out_of_range_counterexample :
    generate_puzzle 5 0 0 0 =
      .ok { num1 := 20, num2 := 10, operation := "+", answer := 30, difficulty := 3 } := by
  simp [generate_puzzle, generate_hard, pyChoice, pyCalculate, randint]
  norm_num

/-- C3 as amended: `generate_puzzle` validates nothing; every difficulty
other than 1 and 2 — in particular every value outside {1,2,3} — is
routed to the hard generator and yields a difficulty-3 puzzle, with no
error (puzzle_generator.py, lines 20–25). -/
theorem C3_out_of_range_defaults_to_hard (d : ℤ) (h1 : d ≠ 1) (h2 : d ≠ 2)
    (sOp sA sB : ℕ) :
    generate_puzzle d sOp sA sB = generate_hard sOp sA sB ∧
    (generate_puzzle d sOp sA sB).toOption.map (fun p => p.difficulty) = some 3 := by
  have hroute : generate_puzzle d sOp sA sB = generate_hard sOp sA sB := by
    unfold generate_puzzle
    rw [if_neg h1, if_neg h2]
  refine ⟨hroute, ?_⟩
  rw [hroute]
  have h4 : sOp % 4 < 4 := Nat.mod_lt _ (by norm_num)
  unfold generate_hard pyChoice
  interval_cases h : sOp % 4 <;> simp [h, pyCalculate, Except.toOption]

/-- Witness for C3's amended theorem at difficulty 0. -/
theorem C3_out_of_range_defaults_to_hard_witness :
    generate_puzzle 0 3 1 2 = generate_hard 3 1 2 ∧
    (generate_puzzle 0 3 1 2).toOption.map (fun p => p.difficulty) = some 3 :=
  C3_out_of_range_defaults_to_hard 0 (by decide) (by decide) 3 1 2

/-- C5: every Hard puzzle whose operator is `"/"` was built by drawing
the divisor `num2` in [2,12] and a quotient in [5,15] and setting
`num1 = num2 * quotient`; hence `num1 % num2 = 0`, `num1 / num2` (the
quotient) lies in [5,15], and the stored answer is exactly
`num1 / num2`, for every random draw (puzzle_generator.py,
lines 97–101 and 122–133). -/
theorem C5_hard_division_exact (sOp sA sB : ℕ) (p : Puzzle)
    (hp : generate_hard sOp sA sB = .ok p) (hop : p.operation = "/") :
    2 ≤ p.num2 ∧ p.num2 ≤ 12 ∧
    5 ≤ p.num1 / p.num2 ∧ p.num1 / p.num2 ≤ 15 ∧
    p.num1 = p.num2 * (p.num1 / p.num2) ∧
    p.num1 % p.num2 = 0 ∧
    p.answer = (p.num1 : ℚ) / (p.num2 : ℚ) := by
  have h4 : sOp % 4 < 4 := Nat.mod_lt _ (by norm_num)
  unfold generate_hard pyChoice at hp
  interval_cases h : sOp % 4 <;> simp [h, pyCalculate] at hp <;>
    subst hp <;> simp_all
  have ha : 2 ≤ randint 2 12 sA ∧ randint 2 12 sA ≤ 12 := by unfold randint; omega
  have hq : 5 ≤ randint 5 15 sB ∧ randint 5 15 sB ≤ 15 := by unfold randint; omega
  have hdiv : randint 2 12 sA * randint 5 15 sB / randint 2 12 sA = randint 5 15 sB :=
    Nat.mul_div_cancel_left _ (by omega)
  rw [hdiv]
  exact ⟨by omega, by omega, by omega, by omega, Or.inl rfl⟩

/-- The Hard division puzzle produced by the draws (3, 0, 0):
divisor 2, quotient 5, so `10 / 2 = 5`. -/
def hardDivSample : Puzzle := ⟨10, 2, "/", 5, 3⟩

/-- Witness for C5 at the concrete draws (3, 0, 0). -/
theorem C5_hard_division_exact_witness :
    2 ≤ hardDivSample.num2 ∧ hardDivSample.num2 ≤ 12 ∧
    5 ≤ hardDivSample.num1 / hardDivSample.num2 ∧
    hardDivSample.num1 / hardDivSample.num2 ≤ 15 ∧
    hardDivSample.num1 = hardDivSample.num2 * (hardDivSample.num1 / hardDivSample.num2) ∧
    hardDivSample.num1 % hardDivSample.num2 = 0 ∧
    hardDivSample.answer = (hardDivSample.num1 : ℚ) / (hardDivSample.num2 : ℚ) :=
  C5_hard_division_exact 3 0 0 hardDivSample
    (by simp [generate_hard, pyChoice, pyCalculate, randint, hardDivSample]; norm_num)
    rfl

/-- The subtraction swap of `_generate_easy` applies (puzzle_generator.py,
lines 38–42): it never yields a negative answer. -/
theorem easy_sub_nonneg (sOp sA sB : ℕ) (p : Puzzle)
    (hp : generate_easy sOp sA sB = .ok p) (hop : p.operation = "-") :
    0 ≤ p.answer := by
  have h2 : sOp % 2 < 2 := Nat.mod_lt _ (by norm_num)
  unfold generate_easy pyChoice at hp
  interval_cases h : sOp % 2 <;> simp [h, pyCalculate] at hp <;> subst hp <;> simp_all
  split_ifs with hlt
  · simp only [sub_nonneg, Nat.cast_le]; omega
  · simp only [sub_nonneg, Nat.cast_le]; omega

/-- The subtraction swap of `_generate_medium` applies
(puzzle_generator.py, lines 70–72): it never yields a negative answer. -/
theorem medium_sub_nonneg (sOp sA sB : ℕ) (p : Puzzle)
    (hp : generate_medium sOp sA sB = .ok p) (hop : p.operation = "-") :
    0 ≤ p.answer := by
  have h3 : sOp % 3 < 3 := Nat.mod_lt _ (by norm_num)
  unfold generate_medium pyChoice at hp
  interval_cases h : sOp % 3 <;> simp [h, pyCalculate] at hp <;> subst hp <;> simp_all
  split_ifs with hlt
  · simp only [sub_nonneg, Nat.cast_le]; omega
  · simp only [sub_nonneg, Nat.cast_le]; omega

/-- The subtraction swap of `_generate_hard` applies (puzzle_generator.py,
lines 102–107): it never yields a negative answer. -/
theorem hard_sub_nonneg (sOp sA sB : ℕ) (p : Puzzle)
    (hp : generate_hard sOp sA sB = .ok p) (hop : p.operation = "-") :
    0 ≤ p.answer := by
  have h4 : sOp % 4 < 4 := Nat.mod_lt _ (by norm_num)
  unfold generate_hard pyChoice at hp
  interval_cases h : sOp % 4 <;> simp [h, pyCalculate] at hp <;> subst hp <;> simp_all
  split_ifs with hlt
  · simp only [sub_nonneg, Nat.cast_le]; omega
  · simp only [sub_nonneg, Nat.cast_le]; omega

/-- C8: at every tier and for every random draw, a generated subtraction
puzzle has a non-negative answer — each generator swaps the operands
before computing the answer whenever the second exceeds the first
(puzzle_generator.py, lines 38–42, 70–72, 102–107). -/
theorem C8_subtraction_never_negative (d : ℤ) (sOp sA sB : ℕ) (p : Puzzle)
    (hp : generate_puzzle d sOp sA sB = .ok p) (hop : p.operation = "-") :
    0 ≤ p.answer := by
  unfold generate_puzzle at hp
  split_ifs at hp
  · exact easy_sub_nonneg sOp sA sB p hp hop
  · exact medium_sub_nonneg sOp sA sB p hp hop
  · exact hard_sub_nonneg sOp sA sB p hp hop

/-- The Easy subtraction puzzle produced by the draws (1, 0, 3): the raw
operands 1 and 4 are swapped, giving `4 - 1 = 3`. -/
def easySubSample : Puzzle := ⟨4, 1, "-", 3, 1⟩

/-- Witness for C8 at difficulty 1 with the concrete draws (1, 0, 3). -/
theorem C8_subtraction_never_negative_witness :
    0 ≤ easySubSample.answer :=
  C8_subtraction_never_negative 1 1 0 3 easySubSample
    (by simp [generate_puzzle, generate_easy, pyChoice, pyCalculate, randint, easySubSample]
        norm_num)
    rfl

/-- During the correct-outcome run of the streak scan (counter `cs`
already positive, `is` still 0), the loop counts the remaining leading
correct records and, if an incorrect record follows, adds exactly 1 to
the incorrect counter before stopping (tracker.py, lines 126–134). -/
lemma streakLoop_run_true (l : List AttemptRecord) : ∀ cs : ℕ, 0 < cs →
    streakLoop l cs 0 = (cs + (l.takeWhile (fun r => r.correct)).length,
      if l.dropWhile (fun r => r.correct) = [] then 0 else 1) := by
  induction l with
  | nil => intro cs h; simp [streakLoop]
  | cons r rest ih =>
    intro cs h
    by_cases hc : r.correct
    · rw [streakLoop, if_pos hc, if_neg (by omega), ih (cs + 1) (by omega)]
      simp [List.takeWhile_cons, List.dropWhile_cons, hc]
      omega
    · rw [streakLoop, if_neg (by simpa using hc), if_pos h]
      simp [List.takeWhile_cons, List.dropWhile_cons, hc]

/-- Mirror image of `streakLoop_run_true` for an incorrect-outcome run. -/
lemma streakLoop_run_false (l : List AttemptRecord) : ∀ is : ℕ, 0 < is →
    streakLoop l 0 is = ((if l.dropWhile (fun r => !r.correct) = [] then 0 else 1),
      is + (l.takeWhile (fun r => !r.correct)).length) := by
  induction l with
  | nil => intro is h; simp [streakLoop]
  | cons r rest ih =>
    intro is h
    by_cases hc : r.correct
    · rw [streakLoop, if_pos hc, if_pos h]
      simp [List.takeWhile_cons, List.dropWhile_cons, hc]
    · rw [streakLoop, if_neg (by simpa using hc), if_neg (by omega), ih (is + 1) (by omega)]
      simp [List.takeWhile_cons, List.dropWhile_cons, hc]
      omega

/-- Closed form of the streak scan on a non-empty (already reversed)
window: the counter of the most recent record's outcome receives the
length of its run, the other counter receives 1 exactly when the window
also contains the opposite outcome. -/
lemma streakLoop_start (r : AttemptRecord) (rv : List AttemptRecord) :
    streakLoop (r :: rv) 0 0 =
      if r.correct then
        (((r :: rv).takeWhile (fun x => x.correct)).length,
         if (r :: rv).dropWhile (fun x => x.correct) = [] then 0 else 1)
      else
        ((if (r :: rv).dropWhile (fun x => !x.correct) = [] then 0 else 1),
         ((r :: rv).takeWhile (fun x => !x.correct)).length) := by
  by_cases hc : r.correct
  · rw [if_pos hc, streakLoop, if_pos hc, if_neg (by omega), streakLoop_run_true rv 1 (by omega)]
    simp [List.takeWhile_cons, List.dropWhile_cons, hc]
    omega
  · rw [if_neg hc, streakLoop, if_neg (by simpa using hc), if_neg (by omega),
      streakLoop_run_false rv 1 (by omega)]
    simp [List.takeWhile_cons, List.dropWhile_cons, hc]
    omega

/-- On a non-empty history, the streak fields of
`get_recent_performance` are exactly the result of the streak scan over
the reversed window (tracker.py, lines 123–134). -/
lemma grp_streak_fields (history : List AttemptRecord) (n : ℕ) (hne : history ≠ []) :
    (get_recent_performance history n).correct_streak =
      (streakLoop (recentWindow history n).reverse 0 0).1 ∧
    (get_recent_performance history n).incorrect_streak =
      (streakLoop (recentWindow history n).reverse 0 0).2 := by
  simp [get_recent_performance, hne]

/-- A two-record history whose most recent record is correct and whose
older record is incorrect: the scan yields correct_streak 1 and
incorrect_streak 1, so both counters are non-zero. -/
def mixedHist : List AttemptRecord :=
  [⟨"7 - 2", 4, 5, false, 3, 1⟩, ⟨"5 + 3", 8, 8, true, 3, 1⟩]

/-- C1 counterexample: on the non-empty history `mixedHist` (an
incorrect record followed by a correct one), it is false that exactly
one of correct_streak and incorrect_streak is non-zero — the scan
increments the opposite counter once at the flip before stopping, giving
correct_streak 1 and incorrect_streak 1 (tracker.py, lines 123–134). -/
theorem C1_streak_counterexample :
    ¬(((get_recent_performance mixedHist 3).correct_streak ≠ 0 ∧
       (get_recent_performance mixedHist 3).incorrect_streak = 0) ∨
      ((get_recent_performance mixedHist 3).correct_streak = 0 ∧
       (get_recent_performance mixedHist 3).incorrect_streak ≠ 0)) := by
  decide

/-- C1 as amended: the streaks scan from the most recent record
backward, counting consecutive same-outcome records, and at the first
outcome flip the opposite counter is incremented once before the scan
stops; hence the counter matching the most recent outcome holds the run
length while the other counter is 1 if the window contains a flip and 0
otherwise — so exactly one counter is non-zero only when all records in
the window share one outcome (tracker.py, lines 123–134). -/
theorem C1_streak_scan (history : List AttemptRecord) (n : ℕ)
    (r : AttemptRecord) (rv : List AttemptRecord)
    (hrv : (recentWindow history n).reverse = r :: rv) :
    (r.correct = true →
      (get_recent_performance history n).correct_streak =
          ((r :: rv).takeWhile (fun x => x.correct)).length ∧
      (get_recent_performance history n).incorrect_streak =
          (if (r :: rv).dropWhile (fun x => x.correct) = [] then 0 else 1)) ∧
    (r.correct = false →
      (get_recent_performance history n).incorrect_streak =
          ((r :: rv).takeWhile (fun x => !x.correct)).length ∧
      (get_recent_performance history n).correct_streak =
          (if (r :: rv).dropWhile (fun x => !x.correct) = [] then 0 else 1)) := by
  have hne : history ≠ [] := by
    intro hcontra
    rw [hcontra] at hrv
    simp [recentWindow, pyLastSlice] at hrv
  obtain ⟨h1, h2⟩ := grp_streak_fields history n hne
  rw [h1, h2, hrv, streakLoop_start]
  constructor
  · intro hc; rw [if_pos hc]; exact ⟨rfl, rfl⟩
  · intro hc; rw [if_neg (by simp [hc])]; exact ⟨rfl, rfl⟩

/-- Witness for C1's amended theorem on `mixedHist`, whose reversed
window is the correct record followed by the incorrect one. -/
theorem C1_streak_scan_witness :
    ((⟨"5 + 3", 8, 8, true, 3, 1⟩ : AttemptRecord).correct = true →
      (get_recent_performance mixedHist 3).correct_streak =
          (((⟨"5 + 3", 8, 8, true, 3, 1⟩ : AttemptRecord) ::
              [(⟨"7 - 2", 4, 5, false, 3, 1⟩ : AttemptRecord)]).takeWhile
            (fun x => x.correct)).length ∧
      (get_recent_performance mixedHist 3).incorrect_streak =
          (if ((⟨"5 + 3", 8, 8, true, 3, 1⟩ : AttemptRecord) ::
                [(⟨"7 - 2", 4, 5, false, 3, 1⟩ : AttemptRecord)]).dropWhile
              (fun x => x.correct) = [] then 0 else 1)) ∧
    ((⟨"5 + 3", 8, 8, true, 3, 1⟩ : AttemptRecord).correct = false →
      (get_recent_performance mixedHist 3).incorrect_streak =
          (((⟨"5 + 3", 8, 8, true, 3, 1⟩ : AttemptRecord) ::
              [(⟨"7 - 2", 4, 5, false, 3, 1⟩ : AttemptRecord)]).takeWhile
            (fun x => !x.correct)).length ∧
      (get_recent_performance mixedHist 3).correct_streak =
          (if ((⟨"5 + 3", 8, 8, true, 3, 1⟩ : AttemptRecord) ::
                [(⟨"7 - 2", 4, 5, false, 3, 1⟩ : AttemptRecord)]).dropWhile
              (fun x => !x.correct) = [] then 0 else 1)) :=
  C1_streak_scan mixedHist 3 ⟨"5 + 3", 8, 8, true, 3, 1⟩
    [⟨"7 - 2", 4, 5, false, 3, 1⟩] (by decide)

/-- C6: the trend statistic is 0 whenever the window holds fewer than 4
records; with 4 or more, the window is split at the integer-floor
midpoint, the accuracy fraction of each half is compared, and the trend
is 1 when the second half exceeds the first by more than 0.2, -1 when it
is lower by more than 0.2, and 0 otherwise (tracker.py, lines 136–146). -/
theorem C6_trend_halves (history : List AttemptRecord) (n : ℕ) :
    ((recentWindow history n).length < 4 →
      (get_recent_performance history n).trend = 0) ∧
    (4 ≤ (recentWindow history n).length →
      (get_recent_performance history n).trend =
        (if (((recentWindow history n).drop ((recentWindow history n).length / 2)).countP
                (fun r => r.correct) : ℚ) /
              (((recentWindow history n).length - (recentWindow history n).length / 2 : ℕ) : ℚ) >
            (((recentWindow history n).take ((recentWindow history n).length / 2)).countP
                (fun r => r.correct) : ℚ) /
              (((recentWindow history n).length / 2 : ℕ) : ℚ) + 0.2
          then 1
          else if (((recentWindow history n).drop ((recentWindow history n).length / 2)).countP
                (fun r => r.correct) : ℚ) /
              (((recentWindow history n).length - (recentWindow history n).length / 2 : ℕ) : ℚ) <
            (((recentWindow history n).take ((recentWindow history n).length / 2)).countP
                (fun r => r.correct) : ℚ) /
              (((recentWindow history n).length / 2 : ℕ) : ℚ) - 0.2
          then -1 else 0)) := by
  by_cases hne : history = []
  · subst hne
    refine ⟨fun _ => rfl, fun habs => ?_⟩
    simp [recentWindow, pyLastSlice] at habs
  · constructor
    · intro hlt
      simp [get_recent_performance, hne]
      omega
    · intro hge
      simp [get_recent_performance, hne, hge]

/-- A four-record history: two incorrect answers followed by two correct
ones, so the halves have accuracies 0 and 1. -/
def fourHist : List AttemptRecord :=
  [⟨"9 + 1", 9, 10, false, 3, 1⟩, ⟨"4 + 4", 7, 8, false, 3, 1⟩,
   ⟨"6 - 2", 4, 4, true, 3, 1⟩, ⟨"2 + 2", 4, 4, true, 3, 1⟩]

/-- A single-record history, whose window holds fewer than 4 records. -/
def oneHist : List AttemptRecord := [⟨"3 + 3", 6, 6, true, 2, 1⟩]

/-- Witness for C6: a short window yields trend 0; the `fourHist` window
(halves at accuracy 0 and 1) yields trend 1. -/
theorem C6_trend_halves_witness :
    (get_recent_performance oneHist 3).trend = 0 ∧
    (get_recent_performance fourHist 4).trend = 1 := by
  constructor
  · exact (C6_trend_halves oneHist 3).1 (by decide)
  · exact ((C6_trend_halves fourHist 4).2 (by decide)).trans
      (by norm_num [fourHist, recentWindow, pyLastSlice])
